import Mathlib

/-!
Shallow embedding of `openspectra/openspecrtra_tools.py`:
the region-of-interest coordinate transformer (`RegionOfInterest`),
the band-statistics noise cleanup (`OpenSpectraBandTools.__bogus_noise_cleanup`),
the `Bands`/`BandStatistics` constructor chain, the region export tool
(`OpenSpectraRegionTools`) and the histogram binning policy
(`OpenSpectraHistogramTools.__get_hist_data`).

Python floats are modelled as `FVal` (rationals plus NaN and the two
infinities, with IEEE comparison semantics); numpy masked arrays as lists of
value/mask pairs; a raised Python exception as the `.error` branch of
`Except PyError`.
-/

namespace OpenSpectra

/-- Python exceptions raised by this module.  `invalidShape` and
`mismatchedPointCount` are the `ValueError`s raised by
`RegionOfInterest.__init__` (the spec's `InvalidShapeError` /
`MismatchedPointCountError`); `typeError` is Python's `TypeError`
(the spec's `UnsupportedTypeError` in the histogram tool, and the
missing-argument error in `BandStatistics.__init__`); `attributeError` is
Python's `AttributeError`; `indexError` an out-of-range sequence index;
`valueError` the generic `ValueError` (e.g. numpy reduction of an empty
array). -/
inductive PyError
  | invalidShape
  | mismatchedPointCount
  | typeError
  | attributeError
  | indexError
  | valueError
deriving DecidableEq, Repr

/-- A Python/numpy double: NaN, +inf, -inf or a finite value (idealised as a
rational). -/
inductive FVal
  | nan
  | inf
  | ninf
  | val (q : ℚ)
deriving DecidableEq, Repr

namespace FVal

/-- IEEE `<` on doubles: any comparison with NaN is false. -/
def flt : FVal → FVal → Bool
  | nan, _ => false
  | _, nan => false
  | ninf, ninf => false
  | ninf, _ => true
  | _, ninf => false
  | inf, _ => false
  | val _, inf => true
  | val a, val b => decide (a < b)

/-- IEEE `==` on doubles: NaN is not equal to anything, itself included.
This is the semantics of Python's `x == np.nan`. -/
def feq : FVal → FVal → Bool
  | nan, _ => false
  | _, nan => false
  | inf, inf => true
  | ninf, ninf => true
  | val a, val b => decide (a = b)
  | _, _ => false

/-- True exactly for NaN and the infinities (numpy's `~isfinite`). -/
def isInvalid : FVal → Bool
  | val _ => false
  | _ => true

/-- Binary minimum with numpy's NaN propagation (`np.min` reduction step). -/
def nmin (a b : FVal) : FVal :=
  match a, b with
  | nan, _ => nan
  | _, nan => nan
  | a, b => if flt a b then a else b

/-- Binary maximum with numpy's NaN propagation (`np.max` reduction step). -/
def nmax (a b : FVal) : FVal :=
  match a, b with
  | nan, _ => nan
  | _, nan => nan
  | a, b => if flt b a then a else b

/-- IEEE addition restricted to what the reductions need: NaN propagates,
inf + (-inf) is NaN, an infinity absorbs finite values. -/
def fadd : FVal → FVal → FVal
  | nan, _ => nan
  | _, nan => nan
  | inf, ninf => nan
  | ninf, inf => nan
  | inf, _ => inf
  | _, inf => inf
  | ninf, _ => ninf
  | _, ninf => ninf
  | val a, val b => val (a + b)

end FVal

/-- Reduction `arr.min()` of a nonempty numpy float array (on an empty
array numpy raises instead; the claims only use nonempty arrays). -/
def npMin : List FVal → FVal
  | [] => .nan
  | x :: xs => xs.foldl FVal.nmin x

/-- Reduction `arr.max()` of a nonempty numpy float array. -/
def npMax : List FVal → FVal
  | [] => .nan
  | x :: xs => xs.foldl FVal.nmax x

/-- A numpy masked array is a list of (data, mask) pairs; `mask = true`
means the entry is masked out of reductions. -/
abbrev MaskedArr := List (FVal × Bool)

/-- Model of `numpy.ma.masked_invalid`: mask NaN and infinities. -/
def masked_invalid (xs : List FVal) : MaskedArr :=
  xs.map fun v => (v, v.isInvalid)

/-- Model of `numpy.ma.masked_outside(arr, lo, hi)`: additionally mask entries with
data `< lo` or `> hi` under IEEE comparisons, so a NaN entry is NOT masked
by this operation (both comparisons are false on NaN). -/
def masked_outside (lo hi : ℚ) (xs : MaskedArr) : MaskedArr :=
  xs.map fun p => (p.1, p.2 || p.1.flt (.val lo) || (FVal.val hi).flt p.1)

/-- Modelled from the spec: `OpenSpectraDataTypes` (in `openspectra/utils.py`,
which is not under `src/`) partitions numpy dtypes into the floating-point
family `Floats`, the integer family `Ints`, and everything else; only the
family of a dtype matters to this module. -/
inductive DType
  | ints
  | floats
  | other
deriving DecidableEq, Repr

/-- Model of `OpenSpectraBandTools.__bogus_noise_cleanup` applied elementwise to a
floating-point band array (lines 295-308 of the source), with the band
array's dtype family passed explicitly.  Note the guard of the
`ma.masked_invalid` branch compares `min()`/`max()` to `np.nan` with `==`,
which is false even when the reduction IS NaN; the branch can only fire
when a reduction equals `+inf`. -/
def bogus_noise_cleanup (dtype : DType) (bands : List FVal) : MaskedArr :=
  match dtype with
  | .floats =>
    let step1 :=
      if ((npMin bands).feq .nan || (npMax bands).feq .nan
          || (npMin bands).feq .inf || (npMax bands).feq .inf) then
        masked_invalid bands
      else
        bands.map fun v => (v, false)
    masked_outside 0 1 step1
  | _ => bands.map fun v => (v, false)

/-- The unmasked data of a masked array, in order (what `numpy.ma`
reductions reduce over). -/
def maskedVals (xs : MaskedArr) : List FVal :=
  (xs.filter fun p => !p.2).map Prod.fst

/-- Sum of the unmasked entries, with IEEE NaN propagation. -/
def maskedSum (xs : MaskedArr) : FVal :=
  (maskedVals xs).foldl FVal.fadd (.val 0)

/-- Model of `ma.mean` over the unmasked entries: their sum divided by their count
(NaN-propagating, so one unmasked NaN makes the mean NaN). -/
def maskedMean (xs : MaskedArr) : FVal :=
  match maskedSum xs, (maskedVals xs).length with
  | _, 0 => .nan
  | .nan, _ => .nan
  | .inf, _ => .inf
  | .ninf, _ => .ninf
  | .val s, n => .val (s / n)

/-- Model of `ma.min` over the unmasked entries (NaN-propagating). -/
def maskedMin (xs : MaskedArr) : FVal :=
  npMin (maskedVals xs)

/-- Model of `ma.max` over the unmasked entries (NaN-propagating). -/
def maskedMax (xs : MaskedArr) : FVal :=
  npMax (maskedVals xs)

/-- Geo-referencing metadata (`OpenSpectraHeader.MapInfo`, an external
collaborator): only the accessors this module calls are modelled.
`projection_zone` is `str()`-ed by the export tool, so it is kept as the
resulting string. -/
structure MapInfo where
  x_reference_pixel : ℚ
  y_reference_pixel : ℚ
  x_pixel_size : ℚ
  y_pixel_size : ℚ
  x_zero_coordinate : ℚ
  y_zero_coordinate : ℚ
  projection_name : String
  projection_zone : Option String
  projection_area : Option String
  datum : String
deriving DecidableEq, Repr, Inhabited

/-- The state of a `RegionOfInterest` object: the fields its `__init__`
assigns.  `index` is the iteration cursor (starts at -1), `iter_limit`
is `size - 1`.  `x_coords`/`y_coords` are `none` while the Python fields
are `None`. -/
structure RegionOfInterest where
  x_points : List ℤ
  y_points : List ℤ
  x_coords : Option (List ℚ)
  y_coords : Option (List ℚ)
  map_info : Option MapInfo
  image_height : ℤ
  image_width : ℤ
  image_name : String
  display_name : Option String
  index : ℤ
  iter_limit : ℤ
deriving DecidableEq, Repr, Inhabited

/-- The `area` argument of `RegionOfInterest.__init__`: a numpy array that
is either 1-dimensional, shape `(N,)`, or 2-dimensional, shape
`(rows.length, cols)` (every row then has length `cols`). -/
inductive PointsArr
  | d1 (xs : List ℚ)
  | d2 (cols : ℕ) (rows : List (List ℚ))
deriving DecidableEq, Repr

/-- Column access `row[j]` on a row of a numpy 2-D array (the shape
contract guarantees the column exists; 0 is a junk default). -/
def colGet (rw : List ℚ) (j : ℕ) : ℚ :=
  rw.getD j 0

/-- Model of `astype(np.int16)` on an integer-valued float: wrap into the 16-bit
signed range. -/
def toInt16 (n : ℤ) : ℤ :=
  (n + 32768) % 65536 - 32768

/-- Model of `RegionOfInterest.__calculate_coords` (lines 83-86): when map-info is
present, recompute both geo coordinate arrays from the pixel points; when
it is absent do nothing, leaving any previously stored coordinates in
place. -/
def calculate_coords (r : RegionOfInterest) : RegionOfInterest :=
  match r.map_info with
  | none => r
  | some mi =>
    { r with
      x_coords := some (r.x_points.map fun px =>
        ((px : ℚ) - (mi.x_reference_pixel - 1)) * mi.x_pixel_size
          + mi.x_zero_coordinate)
      y_coords := some (r.y_points.map fun py =>
        mi.y_zero_coordinate
          - ((py : ℚ) - (mi.y_reference_pixel - 1)) * mi.y_pixel_size) }

/-- Model of `RegionOfInterest.__init__` (lines 17-69): validate the shape of
`area`, split it into x/y columns, convert to pixel space with
`floor(value / zoom)` cast to int16, defensively compare the two sizes,
set the iteration cursor to -1 and the limit to `size - 1`, and derive geo
coordinates when map-info was supplied. -/
def RegionOfInterest.init (area : PointsArr) (x_zoom_factor y_zoom_factor : ℚ)
    (image_height image_width : ℤ) (image_name : String)
    (display_name : Option String) (map_info : Option MapInfo) :
    Except PyError RegionOfInterest :=
  match area with
  | .d1 _ => .error .invalidShape
  | .d2 cols rows =>
    if cols ≠ 2 then .error .invalidShape
    else
      let xs := rows.map fun rw => toInt16 ⌊colGet rw 0 / x_zoom_factor⌋
      let ys := rows.map fun rw => toInt16 ⌊colGet rw 1 / y_zoom_factor⌋
      if xs.length ≠ ys.length then .error .mismatchedPointCount
      else
        .ok (calculate_coords
          { x_points := xs
            y_points := ys
            x_coords := none
            y_coords := none
            map_info := map_info
            image_height := image_height
            image_width := image_width
            image_name := image_name
            display_name := display_name
            index := -1
            iter_limit := (xs.length : ℤ) - 1 })

/-- Model of `RegionOfInterest.set_map_info` (lines 142-144): store the new map-info
(possibly `None`) and rerun `__calculate_coords`. -/
def set_map_info (r : RegionOfInterest) (mi : Option MapInfo) : RegionOfInterest :=
  calculate_coords { r with map_info := mi }

/-- Python sequence indexing `xs[i]`: negative indices count from the end;
out-of-range raises `IndexError` (the `none` case). -/
def pyGet {α : Type} (xs : List α) (i : ℤ) : Option α :=
  if 0 ≤ i then xs.get? i.toNat
  else if -(xs.length : ℤ) ≤ i then xs.get? (i + xs.length).toNat
  else none

/-- Model of `RegionOfInterest.x_point` (lines 96-98): read the pixel x array at the
current cursor. -/
def x_point (r : RegionOfInterest) : Except PyError ℤ :=
  match pyGet r.x_points r.index with
  | some v => .ok v
  | none => .error .indexError

/-- Model of `RegionOfInterest.y_point` (lines 100-102). -/
def y_point (r : RegionOfInterest) : Except PyError ℤ :=
  match pyGet r.y_points r.index with
  | some v => .ok v
  | none => .error .indexError

/-- Model of `RegionOfInterest.x_coordinate` (lines 104-109): `None` when the geo
coordinates were never computed, otherwise the stored array at the current
cursor. -/
def x_coordinate (r : RegionOfInterest) : Except PyError (Option ℚ) :=
  match r.x_coords with
  | none => .ok none
  | some cs =>
    match pyGet cs r.index with
    | some q => .ok (some q)
    | none => .error .indexError

/-- Model of `RegionOfInterest.y_coordinate` (lines 111-116). -/
def y_coordinate (r : RegionOfInterest) : Except PyError (Option ℚ) :=
  match r.y_coords with
  | none => .ok none
  | some cs =>
    match pyGet cs r.index with
    | some q => .ok (some q)
    | none => .error .indexError

/-- Model of `RegionOfInterest.__iter__` (lines 71-74): reset the cursor to -1 and
return the object itself. -/
def roi_iter (r : RegionOfInterest) : RegionOfInterest :=
  { r with index := -1 }

/-- Model of `RegionOfInterest.__next__` (lines 76-81): `StopIteration` (`none`) once
the cursor has reached the limit, otherwise advance it by one. -/
def roi_next (r : RegionOfInterest) : Option RegionOfInterest :=
  if r.iter_limit ≤ r.index then none
  else some { r with index := r.index + 1 }

/-- Fuelled driver of the iteration protocol: call `__next__` until
`StopIteration`, reading `x_point`/`y_point` at every yielded position. -/
def iterVisits : ℕ → RegionOfInterest →
    List (Except PyError ℤ × Except PyError ℤ) × RegionOfInterest
  | 0, r => ([], r)
  | n + 1, r =>
    match roi_next r with
    | none => ([], r)
    | some r' =>
      let rest := iterVisits n r'
      ((x_point r', y_point r') :: rest.1, rest.2)

/-- One full `for`-loop over the region: `__iter__` (which resets the
cursor) followed by exhausting `__next__`.  The fuel `size + 1` is enough
to drain the iterator from any cursor position. -/
def runIteration (r : RegionOfInterest) :
    List (Except PyError ℤ × Except PyError ℤ) × RegionOfInterest :=
  iterVisits (r.x_points.length + 1) (roi_iter r)

/-- The `Bands` value object (lines 182-194): a band array together with its
(name, unit) label pairs. -/
structure Bands where
  bands : List (List ℚ)
  labels : List (String × String)
deriving DecidableEq, Repr

/-- Model of `Bands.__init__(self, bands, labels)` (lines 184-186) as a Python call:
`labels` has no default value, so a call that omits it (`none`) raises
`TypeError: missing 1 required positional argument`. -/
def bandsInit (bands : List (List ℚ))
    (labels : Option (List (String × String))) : Except PyError Bands :=
  match labels with
  | none => .error .typeError
  | some ls => .ok ⟨bands, ls⟩

/-- Model of `BandStatistics.__init__(self, bands)` (lines 199-208): its first
statement is `super().__init__(bands)`, passing only `bands` where
`Bands.__init__` requires `bands` and `labels`; that call raises
`TypeError`, so the statistics assignments on lines 201-208
(`mean`/`min`/`max`/`std` and `mean ± std`) are never reached for any
input. -/
def bandStatisticsInit (bands : List (List ℚ)) : Except PyError Bands := do
  let b ← bandsInit bands none
  pure b

/-- The projection string composed by `OpenSpectraRegionTools.__init__`
(lines 321-326): projection name, then the zone and area when present,
then the datum, space-separated. -/
def projectionString (mi : MapInfo) : String :=
  let p := mi.projection_name
  let p := match mi.projection_zone with
    | some z => p ++ " " ++ z
    | none => p
  let p := match mi.projection_area with
    | some a => p ++ " " ++ a
    | none => p
  p ++ " " ++ mi.datum

/-- The state of an `OpenSpectraRegionTools` object.  `geo_columns` records
which of the two output formats / data headers was chosen: `true` for
`"{0},{1},{2},{3}"` with header `sample,line,x_coordinate,y_coordinate`,
`false` for `"{0},{1}"` with header `sample,line`. -/
structure OpenSpectraRegionTools where
  region : RegionOfInterest
  projection : String
  geo_columns : Bool
  data_header : String
deriving DecidableEq, Repr

/-- Model of `OpenSpectraRegionTools.__init__` (lines 316-333): it reads
`region.map_info()` and immediately calls `.projection_name()` on the
result, so when the region has no map-info it raises `AttributeError`
before the `is not None` check on line 328 can ever select the
`sample,line` format — that branch is unreachable. -/
def regionToolsInit (region : RegionOfInterest) :
    Except PyError OpenSpectraRegionTools :=
  match region.map_info with
  | none => .error .attributeError
  | some mi =>
    let proj := projectionString mi
    if (some mi).isSome then
      .ok { region := region, projection := proj, geo_columns := true
            data_header := "sample,line,x_coordinate,y_coordinate" }
    else
      .ok { region := region, projection := proj, geo_columns := false
            data_header := "sample,line" }

/-- Minimum of a nonempty rational list (numpy `arr.min()` on integer
data, where no NaN exists). -/
def qmin (x : ℚ) (xs : List ℚ) : ℚ :=
  xs.foldl min x

/-- Maximum of a nonempty rational list (numpy `arr.max()` on integer
data). -/
def qmax (x : ℚ) (xs : List ℚ) : ℚ :=
  xs.foldl max x

/-- The fields of a `HistogramPlotData` that `__get_hist_data` fills in:
the data range and the bin count. -/
structure HistogramPlotData where
  x_range : ℚ × ℚ
  bins : ℚ
deriving DecidableEq, Repr

/-- Model of `OpenSpectraHistogramTools.__get_hist_data` (lines 434-446):
integer-family dtype gives `bins = max - min` and range `(min, max)`;
float-family dtype gives the configured constant `FloatBins`
(`OpenSpectraProperties.FloatBins` lives in `openspectra/utils.py`, not
under `src/`, so it is a parameter here) with the same range rule; any
other dtype raises `TypeError` (the spec's `UnsupportedTypeError`).
Reducing an empty array raises `ValueError` in numpy. -/
def get_hist_data (floatBins : ℕ) (dtype : DType) (data : List ℚ) :
    Except PyError HistogramPlotData :=
  match dtype with
  | .ints =>
    match data with
    | [] => .error .valueError
    | x :: xs =>
      .ok { x_range := (qmin x xs, qmax x xs), bins := qmax x xs - qmin x xs }
  | .floats =>
    match data with
    | [] => .error .valueError
    | x :: xs =>
      .ok { x_range := (qmin x xs, qmax x xs), bins := (floatBins : ℚ) }
  | .other => .error .typeError

/-- The concrete map-info used by the C2 counterexample: reference pixel
(1,1), pixel size (1,1), zero-coordinate (5,7). -/
def miC2 : MapInfo :=
  { x_reference_pixel := 1, y_reference_pixel := 1
    x_pixel_size := 1, y_pixel_size := 1
    x_zero_coordinate := 5, y_zero_coordinate := 7
    projection_name := "UTM", projection_zone := none
    projection_area := none, datum := "WGS-84" }

/-- The region the C2 counterexample constructs (one point (0,0), zoom 1,
map-info `miC2`): its geo coordinates are ([5], [7]).  The construction
equality is proved in the counterexample theorem. -/
def roiC2 : RegionOfInterest :=
  { x_points := [0], y_points := [0]
    x_coords := some [5], y_coords := some [7]
    map_info := some miC2
    image_height := 10, image_width := 10
    image_name := "img", display_name := some "r1"
    index := -1, iter_limit := 0 }

/-- The region of the C4 scenario: points `[(0, 1)]`, zoom 1, image 10x10,
image name "img", display name "r1", no map-info.  The construction
equality is proved in the C4 theorem. -/
def roiC4 : RegionOfInterest :=
  { x_points := [0], y_points := [1]
    x_coords := none, y_coords := none
    map_info := none
    image_height := 10, image_width := 10
    image_name := "img", display_name := some "r1"
    index := -1, iter_limit := 0 }

/-- The map-info of the C6 witness region. -/
def miC6w : MapInfo :=
  { x_reference_pixel := 1, y_reference_pixel := 2
    x_pixel_size := 2, y_pixel_size := 3
    x_zero_coordinate := 100, y_zero_coordinate := 200
    projection_name := "UTM", projection_zone := some "13"
    projection_area := none, datum := "WGS-84" }

theorem calculate_coords_x_points (r : RegionOfInterest) :
    (calculate_coords r).x_points = r.x_points := by
  cases h : r.map_info <;> simp [calculate_coords, h]

theorem calculate_coords_y_points (r : RegionOfInterest) :
    (calculate_coords r).y_points = r.y_points := by
  cases h : r.map_info <;> simp [calculate_coords, h]

theorem calculate_coords_index (r : RegionOfInterest) :
    (calculate_coords r).index = r.index := by
  cases h : r.map_info <;> simp [calculate_coords, h]

theorem calculate_coords_of_some (r : RegionOfInterest) (mi : MapInfo)
    (h : r.map_info = some mi) :
    (calculate_coords r).x_coords = some (r.x_points.map fun px =>
      ((px : ℚ) - (mi.x_reference_pixel - 1)) * mi.x_pixel_size
        + mi.x_zero_coordinate)
    ∧ (calculate_coords r).y_coords = some (r.y_points.map fun py =>
      mi.y_zero_coordinate
        - ((py : ℚ) - (mi.y_reference_pixel - 1)) * mi.y_pixel_size) := by
  simp [calculate_coords, h]

/-- Inversion of a successful `RegionOfInterest.init`: the area was a
2-dimensional, 2-column table and the result is exactly the state built
from it. -/
theorem init_ok_inv (area : PointsArr) (xz yz : ℚ) (ih iw : ℤ) (nm : String)
    (dn : Option String) (mi : Option MapInfo) (r : RegionOfInterest)
    (h : RegionOfInterest.init area xz yz ih iw nm dn mi = .ok r) :
    ∃ rows : List (List ℚ), area = .d2 2 rows ∧
      r = calculate_coords
        { x_points := rows.map fun rw => toInt16 ⌊colGet rw 0 / xz⌋
          y_points := rows.map fun rw => toInt16 ⌊colGet rw 1 / yz⌋
          x_coords := none
          y_coords := none
          map_info := mi
          image_height := ih
          image_width := iw
          image_name := nm
          display_name := dn
          index := -1
          iter_limit := (rows.length : ℤ) - 1 } := by
  cases area with
  | d1 xs => simp [RegionOfInterest.init] at h
  | d2 cols rows =>
    by_cases hc : cols = 2
    · subst hc
      refine ⟨rows, rfl, ?_⟩
      simp [RegionOfInterest.init, List.length_map] at h
      exact h.symm
    · simp [RegionOfInterest.init, hc] at h

/-- C1: on the float band array `[1.0, 2.0, NaN]` (a valid value in [0,1],
an out-of-range 2.0, and a NaN) the noise cleanup masks the 2.0 but leaves
the NaN entry UNMASKED (the `min() == np.nan` guard is always false, and
`masked_outside` does not mask NaN), so NaN still reaches the reductions:
the masked mean, min and max of the cleaned array are all NaN —
contradicting the claim that both anomalous values are excluded. -/
theorem bogus_noise_cleanup_leaves_nan_unmasked_C1 :
    bogus_noise_cleanup .floats [.val 1, .val 2, .nan]
      = [(.val 1, false), (.val 2, true), (.nan, false)]
    ∧ maskedMean (bogus_noise_cleanup .floats [.val 1, .val 2, .nan]) = .nan
    ∧ maskedMin (bogus_noise_cleanup .floats [.val 1, .val 2, .nan]) = .nan
    ∧ maskedMax (bogus_noise_cleanup .floats [.val 1, .val 2, .nan]) = .nan := by
  refine ⟨?_, ?_, ?_, ?_⟩ <;> decide

/-- C2 counterexample: a region built with map-info (one point (0,0),
zoom 1, reference pixel (1,1), pixel size (1,1), zero-coordinate (5,7))
has geo coordinates ([5], [7]); after `set_map_info(None)` the map-info
reads back as `None` but the geo-coordinate accessors still return the
previously computed 5 and 7 — not "no value" as the claim states, because
`__calculate_coords` does nothing when map-info is absent. -/
theorem set_map_info_none_stale_C2_cex :
    RegionOfInterest.init (.d2 2 [[0, 0]]) 1 1 10 10 "img" (some "r1")
        (some miC2) = .ok roiC2
    ∧ (set_map_info roiC2 none).map_info = none
    ∧ x_coordinate (set_map_info roiC2 none) = .ok (some 5)
    ∧ y_coordinate (set_map_info roiC2 none) = .ok (some 7) := by
  refine ⟨?_, rfl, rfl, rfl⟩
  simp only [RegionOfInterest.init, calculate_coords, roiC2, miC2, colGet]
  norm_num [toInt16, pyGet]

/-- C2 amended: `set_map_info(None)` leaves the previously stored geo
coordinate arrays in place (reads return the stale values; they are "no
value" only if geo coordinates were never computed), while
`set_map_info` with a present map-info recomputes both geo coordinate
arrays from it without altering the pixel coordinates. -/
theorem set_map_info_C2_amended (r : RegionOfInterest) (mi : MapInfo) :
    ((set_map_info r none).x_points = r.x_points
      ∧ (set_map_info r none).y_points = r.y_points
      ∧ (set_map_info r none).x_coords = r.x_coords
      ∧ (set_map_info r none).y_coords = r.y_coords
      ∧ (set_map_info r none).map_info = none)
    ∧ ((set_map_info r (some mi)).x_points = r.x_points
      ∧ (set_map_info r (some mi)).y_points = r.y_points
      ∧ (set_map_info r (some mi)).x_coords = some (r.x_points.map fun px =>
          ((px : ℚ) - (mi.x_reference_pixel - 1)) * mi.x_pixel_size
            + mi.x_zero_coordinate)
      ∧ (set_map_info r (some mi)).y_coords = some (r.y_points.map fun py =>
          mi.y_zero_coordinate
            - ((py : ℚ) - (mi.y_reference_pixel - 1)) * mi.y_pixel_size)) :=
  ⟨⟨rfl, rfl, rfl, rfl, rfl⟩, ⟨rfl, rfl, rfl, rfl⟩⟩

/-- C3: constructing `BandStatistics` never succeeds: its first statement
`super().__init__(bands)` passes one argument where `Bands.__init__`
requires `bands` and `labels`, so every construction raises `TypeError`
before any statistic (mean, min, max, std, mean ± std) is computed. -/
theorem band_statistics_init_always_raises_C3 (bands : List (List ℚ)) :
    bandStatisticsInit bands = .error .typeError :=
  rfl

/-- C4: for the claim's exact scenario (points [(0,1)], zoom 1, image
10x10, names "r1"/"img", no map-info) the region itself is built, but
constructing the export tool raises `AttributeError`:
`OpenSpectraRegionTools.__init__` calls `.projection_name()` on the
region's `None` map-info before its `is not None` check, so `save_region`
can never run and no file with the `sample,line` header is written. -/
theorem region_tools_init_no_map_info_raises_C4 :
    RegionOfInterest.init (.d2 2 [[0, 1]]) 1 1 10 10 "img" (some "r1") none
      = .ok roiC4
    ∧ roiC4.map_info = none
    ∧ roiC4.x_points = [0] ∧ roiC4.y_points = [1]
    ∧ regionToolsInit roiC4 = .error .attributeError := by
  refine ⟨?_, rfl, rfl, rfl, rfl⟩
  simp only [RegionOfInterest.init, calculate_coords, roiC4, colGet]
  norm_num [toInt16]

/-- C7: the histogram binning policy of `__get_hist_data`: on a nonempty
integer-family array the bin count is `max - min` and the range is
`(min, max)`; on a nonempty float-family array the bin count is the
configured constant `FloatBins` whatever the data; any other dtype raises
`TypeError` (the spec's `UnsupportedTypeError`); and the concrete integer
array `[0, 9, 3]` (min 0, max 9) gets exactly 9 bins. -/
theorem hist_binning_policy_C7 (fb : ℕ) (x : ℚ) (xs : List ℚ) :
    get_hist_data fb .ints (x :: xs)
      = .ok { x_range := (qmin x xs, qmax x xs), bins := qmax x xs - qmin x xs }
    ∧ get_hist_data fb .floats (x :: xs)
      = .ok { x_range := (qmin x xs, qmax x xs), bins := (fb : ℚ) }
    ∧ (∀ data, get_hist_data fb .other data = .error .typeError)
    ∧ get_hist_data fb .ints [0, 9, 3]
      = .ok { x_range := (0, 9), bins := 9 } := by
  refine ⟨rfl, rfl, fun _ => rfl, ?_⟩
  show Except.ok _ = _
  norm_num [qmin, qmax]

/-- C8: a points table that is 1-dimensional (shape `(N,)`) or whose
second dimension is 3 (shape `(N, 3)`) makes `RegionOfInterest.__init__`
fail with the shape `ValueError` (the spec's `InvalidShapeError`), so no
region is produced. -/
theorem roi_shape_validation_C8 :
    (∀ (xs : List ℚ) (xz yz : ℚ) (ih iw : ℤ) (nm : String)
        (dn : Option String) (mi : Option MapInfo),
      RegionOfInterest.init (.d1 xs) xz yz ih iw nm dn mi
        = .error .invalidShape)
    ∧ (∀ (rows : List (List ℚ)) (xz yz : ℚ) (ih iw : ℤ) (nm : String)
        (dn : Option String) (mi : Option MapInfo),
      RegionOfInterest.init (.d2 3 rows) xz yz ih iw nm dn mi
        = .error .invalidShape) :=
  ⟨fun _ _ _ _ _ _ _ _ => rfl, fun _ _ _ _ _ _ _ _ => rfl⟩

/-- C5: for every valid N-by-2 point table (2-dimensional, 2 columns,
nonzero zoom factors), a successfully constructed region has pixel
coordinate lists of length N, and entry i is
`floor(points[i][0] / x_zoom)` resp. `floor(points[i][1] / y_zoom)`, each
cast to a 16-bit signed integer. -/
theorem roi_pixel_conversion_C5 (rows : List (List ℚ)) (xz yz : ℚ)
    (ih iw : ℤ) (nm : String) (dn : Option String) (mi : Option MapInfo)
    (hrows : ∀ rw ∈ rows, rw.length = 2) (hxz : xz ≠ 0) (hyz : yz ≠ 0)
    (r : RegionOfInterest)
    (h : RegionOfInterest.init (.d2 2 rows) xz yz ih iw nm dn mi = .ok r) :
    r.x_points.length = rows.length ∧ r.y_points.length = rows.length
    ∧ ∀ i, i < rows.length →
      r.x_points.get? i = (rows.get? i).map (fun rw => toInt16 ⌊colGet rw 0 / xz⌋)
      ∧ r.y_points.get? i = (rows.get? i).map (fun rw => toInt16 ⌊colGet rw 1 / yz⌋) := by
  obtain ⟨rows', heq, hr⟩ := init_ok_inv _ _ _ _ _ _ _ _ _ h
  injection heq with hcols hrows'
  subst hrows'
  subst hr
  refine ⟨?_, ?_, ?_⟩
  · rw [calculate_coords_x_points]; exact List.length_map _ _
  · rw [calculate_coords_y_points]; exact List.length_map _ _
  · intro i hi
    rw [calculate_coords_x_points, calculate_coords_y_points]
    constructor <;> simp [List.get?_map]

/-- C5 witness: the table `[[3, 7]]` with zoom factors (2, 3) yields one
pixel pair, `x = int16(floor(3/2)) = 1` and `y = int16(floor(7/3)) = 2`. -/
theorem roi_pixel_conversion_C5_witness :
    ∃ r, RegionOfInterest.init (.d2 2 [[3, 7]]) 2 3 10 10 "img" none none
        = .ok r
      ∧ r.x_points.length = 1 ∧ r.y_points.length = 1
      ∧ r.x_points.get? 0 = some 1 ∧ r.y_points.get? 0 = some 2 := by
  have hinit : RegionOfInterest.init (.d2 2 [[3, 7]]) 2 3 10 10 "img" none none
      = .ok { x_points := [1], y_points := [2], x_coords := none
              y_coords := none, map_info := none, image_height := 10
              image_width := 10, image_name := "img", display_name := none
              index := -1, iter_limit := 0 } := by
    simp only [RegionOfInterest.init, calculate_coords, colGet]
    norm_num [toInt16]
  have h := roi_pixel_conversion_C5 [[3, 7]] 2 3 10 10 "img" none none
    (by intro rw hrw; simp at hrw; simp [hrw]) (by norm_num) (by norm_num)
    _ hinit
  refine ⟨_, hinit, h.1, h.2.1, ?_, ?_⟩
  · exact ((h.2.2 0 (by norm_num)).1).trans (by norm_num [colGet, toInt16])
  · exact ((h.2.2 0 (by norm_num)).2).trans (by norm_num [colGet, toInt16])

/-- C6: a region constructed with map-info has
`geo_x = (pixel_x - (rx - 1)) * sx + zx` and
`geo_y = zy - (pixel_y - (ry - 1)) * sy`, entrywise over the pixel
coordinate lists. -/
theorem roi_geo_coords_C6 (area : PointsArr) (xz yz : ℚ) (ih iw : ℤ)
    (nm : String) (dn : Option String) (mi : MapInfo) (r : RegionOfInterest)
    (h : RegionOfInterest.init area xz yz ih iw nm dn (some mi) = .ok r) :
    r.x_coords = some (r.x_points.map fun px =>
      ((px : ℚ) - (mi.x_reference_pixel - 1)) * mi.x_pixel_size
        + mi.x_zero_coordinate)
    ∧ r.y_coords = some (r.y_points.map fun py =>
      mi.y_zero_coordinate
        - ((py : ℚ) - (mi.y_reference_pixel - 1)) * mi.y_pixel_size) := by
  obtain ⟨rows, -, hr⟩ := init_ok_inv _ _ _ _ _ _ _ _ _ h
  subst hr
  rw [calculate_coords_x_points, calculate_coords_y_points]
  exact calculate_coords_of_some _ mi rfl

/-- C6 witness: one point (2, 3) at zoom 1 with reference pixel (1, 2),
pixel size (2, 3) and zero-coordinate (100, 200) gives
`geo_x = (2 - 0) * 2 + 100 = 104` and `geo_y = 200 - (3 - 1) * 3 = 194`. -/
theorem roi_geo_coords_C6_witness :
    ∃ r, RegionOfInterest.init (.d2 2 [[2, 3]]) 1 1 10 10 "img" none
        (some miC6w) = .ok r
      ∧ r.x_coords = some [104] ∧ r.y_coords = some [194] := by
  have hinit : RegionOfInterest.init (.d2 2 [[2, 3]]) 1 1 10 10 "img" none
      (some miC6w)
      = .ok { x_points := [2], y_points := [3], x_coords := some [104]
              y_coords := some [194], map_info := some miC6w
              image_height := 10, image_width := 10, image_name := "img"
              display_name := none, index := -1, iter_limit := 0 } := by
    simp only [RegionOfInterest.init, calculate_coords, colGet, miC6w]
    norm_num [toInt16]
  have h := roi_geo_coords_C6 _ _ _ _ _ _ _ miC6w _ hinit
  refine ⟨_, hinit, h.1.trans ?_, h.2.trans ?_⟩
  · norm_num [miC6w]
  · norm_num [miC6w]

/-- Helper for C9: the iteration driver only ever changes the cursor field
of the region state. -/
theorem iterVisits_state (n : ℕ) : ∀ r : RegionOfInterest,
    ∃ k, (iterVisits n r).2 = { r with index := k } := by
  induction n with
  | zero => exact fun r => ⟨r.index, rfl⟩
  | succ n ih =>
    intro r
    unfold iterVisits roi_next
    by_cases h : r.iter_limit ≤ r.index
    · simp only [h, if_true]
      exact ⟨r.index, rfl⟩
    · simp only [h, if_false]
      obtain ⟨k, hk⟩ := ih { r with index := r.index + 1 }
      exact ⟨k, hk⟩

/-- Helper for C9: a full iteration pass does not depend on the cursor
position the region starts in, because `__iter__` resets it. -/
theorem runIteration_cursor_independent (r : RegionOfInterest) (k : ℤ) :
    runIteration { r with index := k } = runIteration r :=
  rfl

/-- C9: `__iter__` resets the cursor to -1 (before the first element), and
running a full iteration pass twice in a row — the second pass starting
from whatever state the first one left — visits the same pixel coordinate
reads in the same order. -/
theorem roi_iteration_restartable_C9 (r : RegionOfInterest) :
    (roi_iter r).index = -1
    ∧ (runIteration (runIteration r).2).1 = (runIteration r).1 := by
  refine ⟨rfl, ?_⟩
  obtain ⟨k, hk⟩ := iterVisits_state (r.x_points.length + 1) (roi_iter r)
  have h2 : (runIteration r).2 = { r with index := k } := hk
  rw [h2, runIteration_cursor_independent]

/-- Helper for C10: reading a nonempty Python list at index -1 yields its
last element. -/
theorem pyGet_neg_one {α : Type} (xs : List α) (h : xs ≠ []) :
    pyGet xs (-1) = xs.getLast? := by
  have hlen : 1 ≤ (xs.length : ℤ) := by
    have := List.length_pos.2 h
    omega
  unfold pyGet
  rw [if_neg (by omega), if_pos (by omega)]
  have harg : ((-1 : ℤ) + xs.length).toNat = xs.length - 1 := by omega
  rw [harg, List.getLast?_eq_get?]

/-- C10: a freshly constructed nonempty region has its cursor at -1, and
reading `x_point`/`y_point` before the first advance does NOT fail: the
index -1 selects the last element of each pixel array. -/
theorem roi_read_before_first_C10 (area : PointsArr) (xz yz : ℚ)
    (ih iw : ℤ) (nm : String) (dn : Option String) (mi : Option MapInfo)
    (r : RegionOfInterest)
    (h : RegionOfInterest.init area xz yz ih iw nm dn mi = .ok r)
    (hne : r.x_points ≠ []) :
    r.index = -1
    ∧ ∃ vx vy : ℤ,
        r.x_points.getLast? = some vx ∧ r.y_points.getLast? = some vy
        ∧ x_point r = .ok vx ∧ y_point r = .ok vy := by
  obtain ⟨rows, -, hr⟩ := init_ok_inv _ _ _ _ _ _ _ _ _ h
  have hidx : r.index = -1 := by rw [hr, calculate_coords_index]
  have hxlen : r.x_points.length = rows.length := by
    rw [hr, calculate_coords_x_points]; exact List.length_map _ _
  have hylen : r.y_points.length = rows.length := by
    rw [hr, calculate_coords_y_points]; exact List.length_map _ _
  have hyne : r.y_points ≠ [] := by
    intro hcon
    apply hne
    rw [← List.length_eq_zero] at hcon ⊢
    omega
  obtain ⟨vx, hvx⟩ := Option.isSome_iff_exists.1 (List.getLast?_isSome.2 hne)
  obtain ⟨vy, hvy⟩ := Option.isSome_iff_exists.1 (List.getLast?_isSome.2 hyne)
  refine ⟨hidx, vx, vy, hvx, hvy, ?_, ?_⟩
  · unfold x_point
    rw [hidx, pyGet_neg_one _ hne, hvx]
  · unfold y_point
    rw [hidx, pyGet_neg_one _ hyne, hvy]

/-- C10 witness: the region built from `[[1, 2], [3, 4]]` at zoom 1 has
pixel points ([1, 3], [2, 4]); before any advance, `x_point` returns 3 and
`y_point` returns 4 — the LAST point, not a failure. -/
theorem roi_read_before_first_C10_witness :
    ∃ r, RegionOfInterest.init (.d2 2 [[1, 2], [3, 4]]) 1 1 10 10 "img"
        none none = .ok r
      ∧ x_point r = .ok 3 ∧ y_point r = .ok 4 := by
  have hinit : RegionOfInterest.init (.d2 2 [[1, 2], [3, 4]]) 1 1 10 10 "img"
      none none
      = .ok { x_points := [1, 3], y_points := [2, 4], x_coords := none
              y_coords := none, map_info := none, image_height := 10
              image_width := 10, image_name := "img", display_name := none
              index := -1, iter_limit := 1 } := by
    simp only [RegionOfInterest.init, calculate_coords, colGet]
    norm_num [toInt16]
  have h := roi_read_before_first_C10 _ _ _ _ _ _ _ _ _ hinit (by decide)
  obtain ⟨-, vx, vy, hvx, hvy, hx, hy⟩ := h
  have hvx3 : vx = 3 := by
    have : some vx = some 3 := hvx.symm.trans (by decide)
    injection this
  have hvy4 : vy = 4 := by
    have : some vy = some 4 := hvy.symm.trans (by decide)
    injection this
  subst hvx3; subst hvy4
  exact ⟨_, hinit, hx, hy⟩

end OpenSpectra
